import Mathlib

/-!
Shallow embedding of the Tauri backend commands in `src/src-tauri/src/lib.rs`
of the Telepathy desktop utility.  OS effects (subprocess spawning, the
system clipboard, window lookup, event emission) are passed in explicitly:
a spawned process either fails to start (`Except.error` carrying the OS
error text) or finishes with captured `ProcessOutput` or an exit flag.
Conditional compilation (`cfg(target_os = "macos")`) is modelled by a
`Platform` argument.  Commands whose claims speak about which OS calls
happen additionally return a trace of the calls they made.
-/

namespace Telepathy

/-- Platform the code is compiled for: `cfg(target_os = "macos")` versus
every other target. -/
inductive Platform where
  | macos
  | other
  deriving DecidableEq

/-- Exit information of a finished OS process captured with `output()`:
the success flag and numeric exit code of `std::process::ExitStatus`
(`code()` is `None` when the process was killed by a signal), and the
captured stdout and stderr bytes, modelled as their decoded text. -/
structure ProcessOutput where
  success : Bool
  code : Option Int
  stdout : String
  stderr : String
  deriving DecidableEq

/-- Result of Rust `str::trim`, modelled on the character list: whitespace
is dropped from both ends. -/
def strTrim (s : String) : String :=
  ⟨((s.data.dropWhile Char.isWhitespace).reverse.dropWhile Char.isWhitespace).reverse⟩

/-- Result of Rust `str::to_lowercase`, modelled characterwise. -/
def strToLower (s : String) : String :=
  ⟨s.data.map Char.toLower⟩

/-- The string `pat` occurs somewhere inside `hay`. -/
def textContains (hay pat : String) : Prop :=
  ∃ p q, hay = p ++ pat ++ q

/-- Serialized result of the `paste_text` command. -/
structure PasteResult where
  pasted : Bool
  deriving DecidableEq

/-- Serialized result of the `check_accessibility_permission` command. -/
structure AccessibilityStatus where
  granted : Bool
  detail : Option String
  deriving DecidableEq

/-- Panel selector accepted by the `open_system_settings` command. -/
inductive SettingsPanel where
  | camera
  | accessibility
  deriving DecidableEq

/-- OS-side outcomes `paste_text` depends on: whether
`arboard::Clipboard::new()` succeeds, whether `set_text` succeeds for a
given text, and the outcome of spawning the `osascript` paste keystroke
(`Except.error` when the spawn itself fails, otherwise the exit-status
success flag). -/
structure PasteEnv where
  clipboardInit : Except String Unit
  clipboardWrite : String → Except String Unit
  keystrokeStatus : Except String Bool

/-- Error text `format!("Clipboard init failed: {err}")`. -/
def clipboardInitErrorText (err : String) : String :=
  "Clipboard init failed: " ++ err

/-- Error text `format!("Clipboard write failed: {err}")`. -/
def clipboardWriteErrorText (err : String) : String :=
  "Clipboard write failed: " ++ err

/-- Error text `format!("Unable to trigger paste keystroke: {err}")`. -/
def keystrokeSpawnErrorText (err : String) : String :=
  "Unable to trigger paste keystroke: " ++ err

/-- Error text returned when the keystroke process exits unsuccessfully. -/
def keystrokeBlockedErrorText : String :=
  "Paste keystroke was blocked. Enable Accessibility access for Telepathy."

/-- The `paste_text` command.  `clip0` is the clipboard content before the
call; the second component of the result is the clipboard content after it
(a successful `set_text` replaces it with `text`, a failed one leaves it
unchanged). -/
def paste_text (platform : Platform) (env : PasteEnv) (clip0 : Option String)
    (text : String) : Except String PasteResult × Option String :=
  match env.clipboardInit with
  | .error err => (.error (clipboardInitErrorText err), clip0)
  | .ok _ =>
    match env.clipboardWrite text with
    | .error err => (.error (clipboardWriteErrorText err), clip0)
    | .ok _ =>
      match platform with
      | .macos =>
        match env.keystrokeStatus with
        | .error err => (.error (keystrokeSpawnErrorText err), some text)
        | .ok success =>
          if success then (.ok ⟨true⟩, some text)
          else (.error keystrokeBlockedErrorText, some text)
      | .other => (.ok ⟨false⟩, some text)

/-- The `check_accessibility_permission` command.  `output` is the outcome
of `Command::new("osascript").args(...).output()` on macOS (ignored on
other platforms). -/
def check_accessibility_permission (platform : Platform)
    (output : Except String ProcessOutput) : AccessibilityStatus :=
  match platform with
  | .macos =>
    match output with
    | .ok result =>
      if result.success then
        { granted := strToLower (strTrim result.stdout) == "true", detail := none }
      else
        let stderr := strTrim result.stderr
        { granted := false,
          detail := if stderr == "" then none else some stderr }
    | .error err => { granted := false, detail := some err }
  | .other => { granted := true, detail := none }

/-- The fixed URL list `open_system_settings` tries for each panel. -/
def panelUrls : SettingsPanel → List String
  | .camera =>
    ["x-apple.systempreferences:com.apple.preference.security?Privacy_Camera",
     "x-apple.systempreferences:com.apple.settings.PrivacySecurity.extension?Privacy_Camera",
     "x-apple.systempreferences:com.apple.preference.security"]
  | .accessibility =>
    ["x-apple.systempreferences:com.apple.preference.security?Privacy_Accessibility",
     "x-apple.systempreferences:com.apple.settings.PrivacySecurity.extension?Privacy_Accessibility",
     "x-apple.systempreferences:com.apple.preference.security"]

/-- Rendering of `ExitStatus::code()` used in the attempt diagnostic:
`map_or_else(|| "unknown".to_string(), |code| code.to_string())`. -/
def statusCodeText : Option Int → String
  | none => "unknown"
  | some code => toString code

/-- Diagnostic recorded for one rejected `open` attempt. -/
def attemptDetail (output : ProcessOutput) (url : String) : String :=
  let stderr := strTrim output.stderr
  if stderr == "" then
    "open exited with status " ++ statusCodeText output.code ++ " for " ++ url
  else
    "open exited with status " ++ statusCodeText output.code ++ " for " ++ url
      ++ ": " ++ stderr

/-- Error text `format!("Unable to execute 'open' for {url}: {err}")`
returned when the `open` process itself cannot be spawned. -/
def spawnErrorText (url err : String) : String :=
  "Unable to execute \x27open\x27 for " ++ url ++ ": " ++ err

/-- Fallback error text when the URL list is empty (never reached for the
compiled-in lists, which are non-empty). -/
def noUrlErrorText : String :=
  "Unable to open System Settings."

/-- The `for url in urls` loop of `open_system_settings`, threading the
`last_error` accumulator.  `opener url` is the outcome of
`Command::new("open").arg(url).output()`.  Besides the command result the
function returns the list of URLs the opener was invoked for, in order. -/
def openAttempts (opener : String → Except String ProcessOutput) :
    List String → Option String → Except String Unit × List String
  | [], lastError =>
    (.error (lastError.getD noUrlErrorText), [])
  | url :: rest, _lastError =>
    match opener url with
    | .error err => (.error (spawnErrorText url err), [url])
    | .ok output =>
      if output.success then (.ok (), [url])
      else
        ((openAttempts opener rest (some (attemptDetail output url))).1,
         url :: (openAttempts opener rest (some (attemptDetail output url))).2)

/-- The `open_system_settings` command, with the trace of attempted URLs. -/
def open_system_settings (platform : Platform)
    (opener : String → Except String ProcessOutput) (panel : SettingsPanel) :
    Except String Unit × List String :=
  match platform with
  | .macos => openAttempts opener (panelUrls panel) none
  | .other => (.error "System Settings deep link is only implemented on macOS.", [])

/-- OS-side context of `set_overlay_passthrough`: whether
`app.get_webview_window("main")` finds the main window, and the outcome of
`set_ignore_cursor_events` for a given flag. -/
structure OverlayEnv where
  mainWindow : Option Unit
  setIgnoreCursorEvents : Bool → Except String Unit

/-- The `set_overlay_passthrough` command.  The second component of the
result is the trace of `set_ignore_cursor_events` calls made, in order. -/
def set_overlay_passthrough (env : OverlayEnv) (ignore_cursor_events : Bool) :
    Except String Unit × List Bool :=
  match env.mainWindow with
  | none => (.error "Main window not found.", [])
  | some _ =>
    match env.setIgnoreCursorEvents ignore_cursor_events with
    | .ok _ => (.ok (), [ignore_cursor_events])
    | .error err =>
      (.error ("Unable to update overlay passthrough mode: " ++ err),
       [ignore_cursor_events])

/-- The fixed hold-to-record key combination. -/
def HOLD_TO_RECORD_SHORTCUT : String :=
  "CommandOrControl+Shift+Space"

/-- State reported by an OS global-shortcut callback. -/
inductive ShortcutState where
  | pressed
  | released
  deriving DecidableEq

/-- Payload of the `telepathy://hotkey` event. -/
structure HotkeyEventPayload where
  state : String
  shortcut : String
  deriving DecidableEq

/-- The `match event.state` rendering in the shortcut handler. -/
def stateText : ShortcutState → String
  | .pressed => "pressed"
  | .released => "released"

/-- One invocation of the global-shortcut handler closure: it builds one
payload, emits it with `let _ = app.emit(...)` (the emission outcome is
discarded), and that single payload is the emission made.  The returned
list is the trace of emissions of this callback. -/
def hotkeyHandler (emit : HotkeyEventPayload → Except String Unit)
    (event : ShortcutState) : List HotkeyEventPayload :=
  let payload : HotkeyEventPayload :=
    { state := stateText event, shortcut := HOLD_TO_RECORD_SHORTCUT }
  let _ := emit payload
  [payload]

/-- Emissions produced by a sequence of OS shortcut callbacks, in delivery
order. -/
def hotkeyEmissions (emit : HotkeyEventPayload → Except String Unit) :
    List ShortcutState → List HotkeyEventPayload
  | [] => []
  | event :: rest => hotkeyHandler emit event ++ hotkeyEmissions emit rest

/-- Concrete OS context for `paste_text` in which the clipboard works and
the keystroke process runs but exits unsuccessfully. -/
def blockedPasteEnv : PasteEnv :=
  ⟨.ok (), fun _ => .ok (), .ok false⟩

/-- Two appended strings differ when their left parts differ at a character
position both have. -/
theorem append_ne_of_data_ne (a b c d : String) (i : Nat)
    (ha : i < a.data.length) (hb : i < b.data.length)
    (hne : a.data[i]? ≠ b.data[i]?) : a ++ c ≠ b ++ d := by
  intro h
  apply hne
  have hd : a.data ++ c.data = b.data ++ d.data := by
    simpa [String.data_append] using congrArg String.data h
  calc a.data[i]? = (a.data ++ c.data)[i]? := (List.getElem?_append_left ha).symm
    _ = (b.data ++ d.data)[i]? := by rw [hd]
    _ = b.data[i]? := List.getElem?_append_left hb

/-- An append whose left part is non-empty is a non-empty string. -/
theorem append_ne_empty (a b : String) (h : a.data ≠ []) : a ++ b ≠ "" := by
  intro hab
  apply h
  have hd : a.data ++ b.data = ("" : String).data := by
    rw [← String.data_append, hab]
  exact (List.append_eq_nil.mp hd).1

/-- An append whose left part is non-empty never equals a plain string it
differs from at a position both left parts have. -/
theorem append_ne_lit (a b c : String) (i : Nat)
    (ha : i < a.data.length) (hb : i < b.data.length)
    (hne : a.data[i]? ≠ b.data[i]?) : a ++ c ≠ b := by
  intro h
  exact append_ne_of_data_ne a b c "" i ha hb hne (by rw [h, String.append_empty])

/-- Clipboard-init errors are never clipboard-write errors. -/
theorem clipboardInitErrorText_ne_write (e₁ e₂ : String) :
    clipboardInitErrorText e₁ ≠ clipboardWriteErrorText e₂ :=
  append_ne_of_data_ne "Clipboard init failed: " "Clipboard write failed: "
    e₁ e₂ 10 (by decide) (by decide) (by decide)

/-- Clipboard-init errors are never keystroke-spawn errors. -/
theorem clipboardInitErrorText_ne_spawn (e₁ e₂ : String) :
    clipboardInitErrorText e₁ ≠ keystrokeSpawnErrorText e₂ :=
  append_ne_of_data_ne "Clipboard init failed: "
    "Unable to trigger paste keystroke: " e₁ e₂ 0 (by decide) (by decide)
    (by decide)

/-- Clipboard-write errors are never keystroke-spawn errors. -/
theorem clipboardWriteErrorText_ne_spawn (e₁ e₂ : String) :
    clipboardWriteErrorText e₁ ≠ keystrokeSpawnErrorText e₂ :=
  append_ne_of_data_ne "Clipboard write failed: "
    "Unable to trigger paste keystroke: " e₁ e₂ 0 (by decide) (by decide)
    (by decide)

/-- Clipboard-init errors are never the blocked-keystroke error. -/
theorem clipboardInitErrorText_ne_blocked (e : String) :
    clipboardInitErrorText e ≠ keystrokeBlockedErrorText :=
  append_ne_lit "Clipboard init failed: " keystrokeBlockedErrorText e 0
    (by decide) (by decide) (by decide)

/-- Clipboard-write errors are never the blocked-keystroke error. -/
theorem clipboardWriteErrorText_ne_blocked (e : String) :
    clipboardWriteErrorText e ≠ keystrokeBlockedErrorText :=
  append_ne_lit "Clipboard write failed: " keystrokeBlockedErrorText e 0
    (by decide) (by decide) (by decide)

/-- Keystroke-spawn errors are never the blocked-keystroke error. -/
theorem keystrokeSpawnErrorText_ne_blocked (e : String) :
    keystrokeSpawnErrorText e ≠ keystrokeBlockedErrorText :=
  append_ne_lit "Unable to trigger paste keystroke: "
    keystrokeBlockedErrorText e 0 (by decide) (by decide) (by decide)

/-- C3: `check_accessibility_permission` never returns an error: it is a
total function into plain `AccessibilityStatus`, so every outcome of the
underlying OS query — clean success, non-zero exit, or spawn failure, on
every platform — is mapped to a status value rather than a thrown error. -/
theorem check_accessibility_permission_total :
    ∀ (platform : Platform) (output : Except String ProcessOutput),
      ∃ granted detail,
        check_accessibility_permission platform output =
          ⟨granted, detail⟩ :=
  fun platform output =>
    ⟨(check_accessibility_permission platform output).granted,
     (check_accessibility_permission platform output).detail, rfl⟩

/-- C6: when the main window is absent `set_overlay_passthrough` fails
with the "window not found" error and makes no windowing-system call; when
it is present the boolean argument is passed through unchanged to the
single `set_ignore_cursor_events` call. -/
theorem set_overlay_passthrough_spec :
    (∀ (env : OverlayEnv) (flag : Bool), env.mainWindow = none →
        set_overlay_passthrough env flag =
          (.error "Main window not found.", [])) ∧
    (∀ (env : OverlayEnv) (flag : Bool) (w : Unit), env.mainWindow = some w →
        (set_overlay_passthrough env flag).2 = [flag]) := by
  constructor
  · intro env flag hnone
    simp [set_overlay_passthrough, hnone]
  · intro env flag w hsome
    cases hcall : env.setIgnoreCursorEvents flag <;>
      simp [set_overlay_passthrough, hsome, hcall]

/-- The emissions of a callback sequence are its pointwise payloads. -/
theorem hotkeyEmissions_eq_map (emit : HotkeyEventPayload → Except String Unit)
    (events : List ShortcutState) :
    hotkeyEmissions emit events =
      events.map (fun e => ⟨stateText e, HOLD_TO_RECORD_SHORTCUT⟩) := by
  induction events with
  | nil => rfl
  | cons e rest ih => simp [hotkeyEmissions, hotkeyHandler, ih]

/-- C7: every OS hotkey callback emits exactly one event, whose state is
"pressed" for a pressed callback and "released" for a released one and
whose shortcut is always the fixed combination string; a callback sequence
yields one emission per callback with no deduplication, and the emissions
do not depend on the emission function's outcomes (failures are
discarded). -/
theorem hotkey_listener_passthrough :
    (stateText .pressed = "pressed" ∧ stateText .released = "released") ∧
    (∀ (emit : HotkeyEventPayload → Except String Unit) (event : ShortcutState),
        hotkeyHandler emit event =
          [⟨stateText event, HOLD_TO_RECORD_SHORTCUT⟩]) ∧
    (∀ (emit : HotkeyEventPayload → Except String Unit)
        (events : List ShortcutState),
        (hotkeyEmissions emit events).length = events.length) ∧
    (∀ (emitA emitB : HotkeyEventPayload → Except String Unit)
        (events : List ShortcutState),
        hotkeyEmissions emitA events = hotkeyEmissions emitB events) ∧
    (∀ (emit : HotkeyEventPayload → Except String Unit)
        (events : List ShortcutState) (i : Nat)
        (h1 : i < (hotkeyEmissions emit events).length) (h2 : i < events.length),
        (hotkeyEmissions emit events).get ⟨i, h1⟩ =
          ⟨stateText (events.get ⟨i, h2⟩), HOLD_TO_RECORD_SHORTCUT⟩) := by
  refine ⟨⟨rfl, rfl⟩, ?_, ?_, ?_, ?_⟩
  · intro emit event
    rfl
  · intro emit events
    simp [hotkeyEmissions_eq_map]
  · intro emitA emitB events
    rw [hotkeyEmissions_eq_map, hotkeyEmissions_eq_map]
  · intro emit events i h1 h2
    simp [hotkeyEmissions_eq_map, List.get_eq_getElem]

/-- C2: a successful `paste_text` call on a non-macOS platform always
reports `pasted = false`; on macOS every successful call reports
`pasted = true`, and it succeeds exactly when the clipboard was
initialised and written and the keystroke process spawned and exited
successfully. -/
theorem paste_text_pasted_flag :
    (∀ (env : PasteEnv) (clip0 : Option String) (text : String)
        (r : PasteResult),
        (paste_text .other env clip0 text).1 = .ok r → r.pasted = false) ∧
    (∀ (env : PasteEnv) (clip0 : Option String) (text : String)
        (r : PasteResult),
        (paste_text .macos env clip0 text).1 = .ok r → r.pasted = true) ∧
    (∀ (env : PasteEnv) (clip0 : Option String) (text : String),
        (paste_text .macos env clip0 text).1 = .ok ⟨true⟩ ↔
          env.clipboardInit = .ok () ∧ env.clipboardWrite text = .ok () ∧
            env.keystrokeStatus = .ok true) := by
  refine ⟨?_, ?_, ?_⟩
  · intro env clip0 text r h
    obtain ⟨ci, cw, ks⟩ := env
    cases ci with
    | error e => simp [paste_text] at h
    | ok u =>
      cases hcw : cw text with
      | error e => simp [paste_text, hcw] at h
      | ok v =>
        simp [paste_text, hcw] at h
        rw [← h]
  · intro env clip0 text r h
    obtain ⟨ci, cw, ks⟩ := env
    cases ci with
    | error e => simp [paste_text] at h
    | ok u =>
      cases hcw : cw text with
      | error e => simp [paste_text, hcw] at h
      | ok v =>
        cases ks with
        | error e => simp [paste_text, hcw] at h
        | ok success =>
          cases success with
          | false => simp [paste_text, hcw] at h
          | true =>
            simp [paste_text, hcw] at h
            rw [← h]
  · intro env clip0 text
    obtain ⟨ci, cw, ks⟩ := env
    cases ci with
    | error e => simp [paste_text]
    | ok u =>
      cases u
      cases hcw : cw text with
      | error e => simp [paste_text, hcw]
      | ok v =>
        cases v
        cases ks with
        | error e => simp [paste_text, hcw]
        | ok success =>
          cases success <;> simp [paste_text, hcw]

/-- C4: on macOS a clean query exit grants exactly when the trimmed,
lowercased stdout is "true" with no detail; an unsuccessful exit reports
`granted = false` with the non-empty trimmed stderr attached (or no
detail); a spawn failure reports `granted = false` with the spawn error
text; every non-macOS call returns `granted = true` with no detail. -/
theorem check_accessibility_permission_spec :
    (∀ out : ProcessOutput, out.success = true →
        ((check_accessibility_permission .macos (.ok out)).granted = true ↔
          strToLower (strTrim out.stdout) = "true") ∧
        (check_accessibility_permission .macos (.ok out)).detail = none) ∧
    (∀ out : ProcessOutput, out.success = false →
        (check_accessibility_permission .macos (.ok out)).granted = false ∧
        (check_accessibility_permission .macos (.ok out)).detail =
          (if strTrim out.stderr = "" then none
           else some (strTrim out.stderr))) ∧
    (∀ err : String,
        check_accessibility_permission .macos (.error err) =
          ⟨false, some err⟩) ∧
    (∀ output : Except String ProcessOutput,
        check_accessibility_permission .other output = ⟨true, none⟩) := by
  refine ⟨?_, ?_, fun err => rfl, fun output => rfl⟩
  · intro out hsucc
    constructor
    · simp [check_accessibility_permission, hsucc]
    · simp [check_accessibility_permission, hsucc]
  · intro out hfail
    constructor
    · simp [check_accessibility_permission, hfail]
    · simp [check_accessibility_permission, hfail]

/-- C8: whenever the OS spawn-error text is non-empty (as the OS
guarantees for process-spawn failures), a status with `granted = true`
carries no detail, and a present detail implies `granted = false` and a
non-empty detail text. -/
theorem check_accessibility_detail_invariant :
    ∀ (platform : Platform) (output : Except String ProcessOutput),
      (∀ e, output = .error e → e ≠ "") →
      ((check_accessibility_permission platform output).granted = true →
          (check_accessibility_permission platform output).detail = none) ∧
      (∀ d, (check_accessibility_permission platform output).detail = some d →
          (check_accessibility_permission platform output).granted = false ∧
            d ≠ "") := by
  intro platform output herr
  cases platform with
  | other => simp [check_accessibility_permission]
  | macos =>
    cases output with
    | error e =>
      refine ⟨fun h => by simp [check_accessibility_permission] at h, ?_⟩
      intro d hd
      simp [check_accessibility_permission] at hd ⊢
      rw [← hd]
      exact herr e rfl
    | ok result =>
      cases hs : result.success with
      | true =>
        refine ⟨fun _ => by simp [check_accessibility_permission, hs], ?_⟩
        intro d hd
        simp [check_accessibility_permission, hs] at hd
      | false =>
        refine ⟨fun h => by simp [check_accessibility_permission, hs] at h, ?_⟩
        intro d hd
        refine ⟨by simp [check_accessibility_permission, hs], ?_⟩
        simp [check_accessibility_permission, hs] at hd
        obtain ⟨hne, hd⟩ := hd
        rw [← hd]
        exact hne

/-- C8 witness: a concrete spawn failure yields `granted = false` with the
non-empty spawn error text attached. -/
theorem check_accessibility_detail_invariant_witness :
    (check_accessibility_permission .macos
        (.error "No such file or directory (os error 2)")).granted = false ∧
      "No such file or directory (os error 2)" ≠ "" :=
  (check_accessibility_detail_invariant .macos
      (.error "No such file or directory (os error 2)")
      (by intro e he; injection he with h; rw [← h]; decide)).2
    "No such file or directory (os error 2)" rfl

/-- C5: each `paste_text` failure mode surfaces its own error text; the
four error texts are pairwise distinct and non-empty for every underlying
message, and the blocked-keystroke error instructs the user to enable
Accessibility access. -/
theorem paste_text_error_taxonomy :
    (∀ (env : PasteEnv) (clip0 : Option String) (text err : String),
        env.clipboardInit = .error err →
        (paste_text .macos env clip0 text).1 =
          .error (clipboardInitErrorText err)) ∧
    (∀ (env : PasteEnv) (clip0 : Option String) (text err : String),
        env.clipboardInit = .ok () → env.clipboardWrite text = .error err →
        (paste_text .macos env clip0 text).1 =
          .error (clipboardWriteErrorText err)) ∧
    (∀ (env : PasteEnv) (clip0 : Option String) (text err : String),
        env.clipboardInit = .ok () → env.clipboardWrite text = .ok () →
        env.keystrokeStatus = .error err →
        (paste_text .macos env clip0 text).1 =
          .error (keystrokeSpawnErrorText err)) ∧
    (∀ (env : PasteEnv) (clip0 : Option String) (text : String),
        env.clipboardInit = .ok () → env.clipboardWrite text = .ok () →
        env.keystrokeStatus = .ok false →
        (paste_text .macos env clip0 text).1 =
          .error keystrokeBlockedErrorText) ∧
    (∀ err : String, clipboardInitErrorText err ≠ "" ∧
        clipboardWriteErrorText err ≠ "" ∧
        keystrokeSpawnErrorText err ≠ "") ∧
    keystrokeBlockedErrorText ≠ "" ∧
    (∀ e₁ e₂ : String,
        clipboardInitErrorText e₁ ≠ clipboardWriteErrorText e₂) ∧
    (∀ e₁ e₂ : String,
        clipboardInitErrorText e₁ ≠ keystrokeSpawnErrorText e₂) ∧
    (∀ e₁ e₂ : String,
        clipboardWriteErrorText e₁ ≠ keystrokeSpawnErrorText e₂) ∧
    (∀ e : String, clipboardInitErrorText e ≠ keystrokeBlockedErrorText) ∧
    (∀ e : String, clipboardWriteErrorText e ≠ keystrokeBlockedErrorText) ∧
    (∀ e : String, keystrokeSpawnErrorText e ≠ keystrokeBlockedErrorText) ∧
    textContains keystrokeBlockedErrorText "Enable Accessibility access" := by
  refine ⟨?_, ?_, ?_, ?_, ?_, by decide, clipboardInitErrorText_ne_write,
    clipboardInitErrorText_ne_spawn, clipboardWriteErrorText_ne_spawn,
    clipboardInitErrorText_ne_blocked, clipboardWriteErrorText_ne_blocked,
    keystrokeSpawnErrorText_ne_blocked,
    ⟨"Paste keystroke was blocked. ", " for Telepathy.", by decide⟩⟩
  · intro env clip0 text err h
    simp [paste_text, h]
  · intro env clip0 text err h1 h2
    simp [paste_text, h1, h2]
  · intro env clip0 text err h1 h2 h3
    simp [paste_text, h1, h2, h3]
  · intro env clip0 text h1 h2 h3
    simp [paste_text, h1, h2, h3]
  · intro err
    exact ⟨append_ne_empty _ _ (by decide), append_ne_empty _ _ (by decide),
      append_ne_empty _ _ (by decide)⟩

/-- C10: on macOS, whenever `paste_text` fails with the blocked-keystroke
error or a keystroke-spawn error, the clipboard write has already
completed: the command reports failure while the clipboard now holds the
new text. -/
theorem paste_text_clipboard_mutation :
    ∀ (env : PasteEnv) (clip0 : Option String) (text : String),
      ((paste_text .macos env clip0 text).1 =
          .error keystrokeBlockedErrorText ∨
        (∃ e, (paste_text .macos env clip0 text).1 =
          .error (keystrokeSpawnErrorText e))) →
      (paste_text .macos env clip0 text).2 = some text := by
  intro env clip0 text h
  obtain ⟨ci, cw, ks⟩ := env
  cases ci with
  | error e =>
    exfalso
    rcases h with h | ⟨e₂, h⟩
    · simp [paste_text] at h
      exact clipboardInitErrorText_ne_blocked e h
    · simp [paste_text] at h
      exact clipboardInitErrorText_ne_spawn e e₂ h
  | ok u =>
    cases hcw : cw text with
    | error e =>
      exfalso
      rcases h with h | ⟨e₂, h⟩
      · simp [paste_text, hcw] at h
        exact clipboardWriteErrorText_ne_blocked e h
      · simp [paste_text, hcw] at h
        exact clipboardWriteErrorText_ne_spawn e e₂ h
    | ok v =>
      cases ks with
      | error e => simp [paste_text, hcw]
      | ok success => cases success <;> simp [paste_text, hcw]

/-- C10 witness: with a working clipboard and a blocked keystroke the
clipboard ends up holding the pasted text. -/
theorem paste_text_clipboard_mutation_witness :
    (paste_text .macos blockedPasteEnv none "hello").2 = some "hello" :=
  paste_text_clipboard_mutation blockedPasteEnv none "hello" (Or.inl rfl)

/-- Each panel's compiled-in URL list is non-empty. -/
theorem panelUrls_ne_nil (panel : SettingsPanel) : panelUrls panel ≠ [] := by
  cases panel <;> simp [panelUrls]

/-- Shape of a rejected-attempt diagnostic: it starts with the fixed
status prefix. -/
theorem attemptDetail_shape (out : ProcessOutput) (url : String) :
    ∃ r, attemptDetail out url = "open exited with status " ++ r := by
  simp only [attemptDetail]
  split
  · exact ⟨statusCodeText out.code ++ (" for " ++ url),
      by simp [String.append_assoc]⟩
  · exact ⟨statusCodeText out.code ++
      (" for " ++ (url ++ (": " ++ strTrim out.stderr))),
      by simp [String.append_assoc]⟩

/-- A rejected-attempt diagnostic names the attempted URL. -/
theorem attemptDetail_contains_url (out : ProcessOutput) (url : String) :
    textContains (attemptDetail out url) url := by
  simp only [attemptDetail, textContains]
  split
  · exact ⟨"open exited with status " ++ statusCodeText out.code ++ " for ",
      "", by simp [String.append_assoc]⟩
  · exact ⟨"open exited with status " ++ statusCodeText out.code ++ " for ",
      ": " ++ strTrim out.stderr, by simp [String.append_assoc]⟩

/-- A rejected-attempt diagnostic names the attempt's exit status. -/
theorem attemptDetail_contains_status (out : ProcessOutput) (url : String) :
    textContains (attemptDetail out url) (statusCodeText out.code) := by
  simp only [attemptDetail, textContains]
  split
  · exact ⟨"open exited with status ", " for " ++ url,
      by simp [String.append_assoc]⟩
  · exact ⟨"open exited with status ",
      " for " ++ (url ++ (": " ++ strTrim out.stderr)),
      by simp [String.append_assoc]⟩

/-- A spawn error is never a rejected-attempt diagnostic. -/
theorem spawnErrorText_ne_attemptDetail (url e : String)
    (out : ProcessOutput) (url₂ : String) :
    spawnErrorText url e ≠ attemptDetail out url₂ := by
  intro h
  obtain ⟨r, hr⟩ := attemptDetail_shape out url₂
  rw [hr] at h
  have h2 : ("Unable to execute \x27open\x27 for " : String) ++
      (url ++ (": " ++ e)) = "open exited with status " ++ r := by
    simpa [spawnErrorText, String.append_assoc] using h
  exact append_ne_of_data_ne "Unable to execute \x27open\x27 for "
    "open exited with status " (url ++ (": " ++ e)) r 0 (by decide)
    (by decide) (by decide) h2

/-- A spawn error is never the empty-list fallback error. -/
theorem spawnErrorText_ne_noUrl (url e : String) :
    spawnErrorText url e ≠ noUrlErrorText := by
  intro h
  have h2 : ("Unable to execute \x27open\x27 for " : String) ++
      (url ++ (": " ++ e)) = noUrlErrorText := by
    simpa [spawnErrorText, String.append_assoc] using h
  exact append_ne_lit "Unable to execute \x27open\x27 for " noUrlErrorText
    (url ++ (": " ++ e)) 10 (by decide) (by decide) (by decide) h2

/-- When the opener rejects the first `n` URLs and accepts the next one,
the loop succeeds and attempts exactly the first `n + 1` URLs. -/
theorem openAttempts_first_accept
    (opener : String → Except String ProcessOutput) (urls : List String)
    (le : Option String) (n : Nat) (hn : n < urls.length)
    (hrej : ∀ url ∈ urls.take n, ∃ o, opener url = .ok o ∧ o.success = false)
    (out : ProcessOutput) (hacc : opener urls[n] = .ok out)
    (hsucc : out.success = true) :
    openAttempts opener urls le = (.ok (), urls.take (n + 1)) := by
  induction urls generalizing le n with
  | nil => exact absurd hn (Nat.not_lt_zero n)
  | cons u rest ih =>
    cases n with
    | zero =>
      simp only [List.getElem_cons_zero] at hacc
      simp [openAttempts, hacc, hsucc]
    | succ m =>
      obtain ⟨o, ho, hf⟩ := hrej u (by simp [List.take_succ_cons])
      have hm : m < rest.length := by simpa using hn
      have hrec := ih (some (attemptDetail o u)) m hm
        (fun url hu => hrej url
          (by simp only [List.take_succ_cons, List.mem_cons]; exact Or.inr hu))
        (by simpa using hacc)
      simp [openAttempts, ho, hf, hrec, List.take_succ_cons]

/-- One rejected head step of the attempt loop. -/
theorem openAttempts_cons_reject
    (opener : String → Except String ProcessOutput) (u : String)
    (rest : List String) (le : Option String) (o : ProcessOutput)
    (ho : opener u = .ok o) (hf : o.success = false) :
    openAttempts opener (u :: rest) le =
      ((openAttempts opener rest (some (attemptDetail o u))).1,
       u :: (openAttempts opener rest (some (attemptDetail o u))).2) := by
  simp [openAttempts, ho, hf]

/-- When the opener rejects every URL, the loop attempts all of them and
fails with the last attempt's diagnostic. -/
theorem openAttempts_all_reject
    (opener : String → Except String ProcessOutput) (urls : List String)
    (le : Option String)
    (hrej : ∀ url ∈ urls, ∃ o, opener url = .ok o ∧ o.success = false)
    (lastUrl : String) (hlast : urls.getLast? = some lastUrl)
    (out : ProcessOutput) (hout : opener lastUrl = .ok out) :
    openAttempts opener urls le =
      (.error (attemptDetail out lastUrl), urls) := by
  induction urls generalizing le with
  | nil => simp at hlast
  | cons u rest ih =>
    cases rest with
    | nil =>
      simp at hlast
      subst hlast
      obtain ⟨o, ho, hf⟩ := hrej u (by simp)
      have ho2 : o = out := by
        rw [ho] at hout
        exact Except.ok.inj hout
      subst ho2
      simp [openAttempts, ho, hf]
    | cons v rest2 =>
      have hlast2 : (v :: rest2).getLast? = some lastUrl := by
        simpa [List.getLast?_cons_cons] using hlast
      obtain ⟨o, ho, hf⟩ := hrej u (by simp)
      have hrec := ih (some (attemptDetail o u))
        (fun url hu => hrej url (List.mem_cons_of_mem u hu)) hlast2
      rw [openAttempts_cons_reject opener u (v :: rest2) le o ho hf, hrec]

/-- When the opener rejects the first `k` URLs and cannot be spawned for
the next one, the loop stops there with the spawn error. -/
theorem openAttempts_spawn
    (opener : String → Except String ProcessOutput) (urls : List String)
    (le : Option String) (k : Nat) (hk : k < urls.length)
    (hrej : ∀ url ∈ urls.take k, ∃ o, opener url = .ok o ∧ o.success = false)
    (e : String) (hsp : opener urls[k] = .error e) :
    openAttempts opener urls le =
      (.error (spawnErrorText urls[k] e), urls.take (k + 1)) := by
  induction urls generalizing le k with
  | nil => exact absurd hk (Nat.not_lt_zero k)
  | cons u rest ih =>
    cases k with
    | zero =>
      simp only [List.getElem_cons_zero] at hsp ⊢
      simp [openAttempts, hsp]
    | succ m =>
      obtain ⟨o, ho, hf⟩ := hrej u (by simp [List.take_succ_cons])
      have hm : m < rest.length := by simpa using hk
      have hrec := ih (some (attemptDetail o u)) m hm
        (fun url hu => hrej url
          (by simp only [List.take_succ_cons, List.mem_cons]; exact Or.inr hu))
        (by simpa using hsp)
      simp [openAttempts, ho, hf, hrec, List.take_succ_cons,
        List.getElem_cons_succ]

/-- C1: for every panel, on macOS the fixed three-element URL list is
tried in order: if the opener rejects the first `n` URLs and accepts the
next one, the command succeeds after exactly `n + 1` opener invocations
and invokes the opener for no later URL; if the opener rejects every URL,
the command fails with an error naming the last attempted URL and that
attempt's exit status, after attempting the whole list. -/
theorem open_system_settings_attempt_order :
    (∀ (panel : SettingsPanel)
        (opener : String → Except String ProcessOutput) (n : Nat)
        (hn : n < (panelUrls panel).length) (out : ProcessOutput),
        (∀ url ∈ (panelUrls panel).take n,
            ∃ o, opener url = .ok o ∧ o.success = false) →
        opener (panelUrls panel)[n] = .ok out → out.success = true →
        open_system_settings .macos opener panel =
          (.ok (), (panelUrls panel).take (n + 1))) ∧
    (∀ (panel : SettingsPanel)
        (opener : String → Except String ProcessOutput)
        (out : ProcessOutput) (lastUrl : String),
        (∀ url ∈ panelUrls panel,
            ∃ o, opener url = .ok o ∧ o.success = false) →
        (panelUrls panel).getLast? = some lastUrl →
        opener lastUrl = .ok out →
        ∃ e, open_system_settings .macos opener panel =
            (.error e, panelUrls panel) ∧
          textContains e lastUrl ∧
          textContains e (statusCodeText out.code)) := by
  constructor
  · intro panel opener n hn out hrej hacc hsucc
    simp only [open_system_settings]
    exact openAttempts_first_accept opener (panelUrls panel) none n hn hrej
      out hacc hsucc
  · intro panel opener out lastUrl hrej hlast hout
    refine ⟨attemptDetail out lastUrl, ?_, attemptDetail_contains_url out
      lastUrl, attemptDetail_contains_status out lastUrl⟩
    simp only [open_system_settings]
    exact openAttempts_all_reject opener (panelUrls panel) none hrej lastUrl
      hlast out hout

/-- C9: for every panel, if the opener process cannot be spawned for the
URL reached after `k` rejections, the command stops immediately with the
spawn error (attempting no later URL), and that error is distinct from
every all-URLs-rejected error and from the fallback error. -/
theorem open_system_settings_spawn_failure :
    (∀ (panel : SettingsPanel)
        (opener : String → Except String ProcessOutput) (k : Nat)
        (hk : k < (panelUrls panel).length) (e : String),
        (∀ url ∈ (panelUrls panel).take k,
            ∃ o, opener url = .ok o ∧ o.success = false) →
        opener (panelUrls panel)[k] = .error e →
        open_system_settings .macos opener panel =
          (.error (spawnErrorText (panelUrls panel)[k] e),
           (panelUrls panel).take (k + 1))) ∧
    (∀ (url e : String) (out : ProcessOutput) (url₂ : String),
        spawnErrorText url e ≠ attemptDetail out url₂) ∧
    (∀ url e : String, spawnErrorText url e ≠ noUrlErrorText) := by
  refine ⟨?_, spawnErrorText_ne_attemptDetail, spawnErrorText_ne_noUrl⟩
  intro panel opener k hk e hrej hsp
  simp only [open_system_settings]
  exact openAttempts_spawn opener (panelUrls panel) none k hk hrej e hsp

end Telepathy
